import Mathlib

/-!
Verification of the energy/carbon estimation and workload-allocation core of
a cloud monitoring repository.  The Python sources are shallowly embedded:
floats become rationals, dictionary `.get(key, default)` lookups become total
functions with an explicit fallback branch, and a raised exception becomes an
`Except.error` carrying the exception message.
-/

namespace EstimationEngine

/-- Embeds the `instance_base_power` dictionary of
`RealTimeDataCollector.estimate_energy_consumption`
(scripts/collect_realtime_data.py, lines 73-83), together with its
`.get(instance_type, 5)` fallback for unknown instance classes. -/
def instanceBasePower (instance_type : String) : ℚ :=
  if instance_type = "t2.micro" then 2
  else if instance_type = "t2.small" then 4
  else if instance_type = "t2.medium" then 8
  else if instance_type = "t3.micro" then 2
  else if instance_type = "t3.small" then 4
  else if instance_type = "t3.medium" then 8
  else 5

/-- Embeds `RealTimeDataCollector.estimate_energy_consumption`
(scripts/collect_realtime_data.py, lines 70-88): the base power is looked up
with fallback 5, `max_power = base_power * 2.5`, and the returned power is
`base_power + (max_power - base_power) * (cpu_utilization / 100)`. -/
def estimate_energy_consumption (cpu_utilization : ℚ) (instance_type : String) : ℚ :=
  let base_power := instanceBasePower instance_type
  let max_power := base_power * (5 / 2)
  base_power + (max_power - base_power) * (cpu_utilization / 100)

/-- Embeds the `carbon_factors` dictionary shared by
`RealTimeDataCollector.estimate_carbon_footprint`
(scripts/collect_realtime_data.py, lines 93-100) and
`EnergyMonitor.estimate_carbon_footprint` (src/energy_monitoring.py, lines
115-121), with the `.get(region, 500)` fallback for unknown regions. -/
def carbonFactor (region : String) : ℚ :=
  if region = "us-east-1" then 400
  else if region = "eu-west-1" then 200
  else if region = "ap-southeast-1" then 600
  else 500

/-- Embeds `RealTimeDataCollector.estimate_carbon_footprint`
(scripts/collect_realtime_data.py, line 101) and the identical arithmetic of
`EnergyMonitor.estimate_carbon_footprint` (src/energy_monitoring.py,
line 123): the source returns `(energy_consumption / 1000) * factor`. -/
def estimate_carbon_footprint (energy_consumption : ℚ) (region : String) : ℚ :=
  (energy_consumption / 1000) * carbonFactor region

/-- Embeds `EnergyMonitor.calculate_energy_consumption`
(src/energy_monitoring.py, lines 92-108): the CPUUtilization series is
averaged; on a non-empty series the result is
`base_power + (max_power - base_power) * (avg_cpu / 100)` with the fixed
constants `base_power = 100` and `max_power = 200`; on an empty series the
function returns 0. -/
def calculate_energy_consumption (cpuSeries : List ℚ) : ℚ :=
  if cpuSeries = [] then 0
  else
    let avg_cpu := cpuSeries.sum / (cpuSeries.length : ℚ)
    let base_power : ℚ := 100
    let max_power : ℚ := 200
    base_power + (max_power - base_power) * (avg_cpu / 100)

/-- One candidate record of `WorkloadAllocator.allocate_workload`
(src/workload_allocator.py): the dictionaries in `instance_metrics` carry an
`instance_id` and an `energy_consumption` value. -/
structure Candidate where
  instance_id : String
  energy_consumption : ℚ
  deriving DecidableEq, Repr

/-- Result dictionary of `WorkloadAllocator.allocate_workload`
(src/workload_allocator.py, lines 106-119): either
`{'status': 'success', 'allocated_instance': ..., 'energy_consumption': ...}`
or the sentinel `{'status': 'error', 'message': ...}`. -/
inductive AllocationResult where
  | success (allocated_instance : String) (energy_consumption : ℚ)
  | error (message : String)
  deriving DecidableEq, Repr

/-- One comparison step of Python `min` with a key function: the running
minimum is replaced only when the new element is strictly smaller, so the
first-encountered minimum is kept. -/
def min_step (a b : Candidate) : Candidate :=
  if b.energy_consumption < a.energy_consumption then b else a

/-- Python `min(instance_metrics, key=lambda x: x['energy_consumption'])`
over a non-empty list, embedded as a left fold of `min_step` (Python `min`
keeps the first of several tied minima). -/
def py_min (x : Candidate) (xs : List Candidate) : Candidate :=
  xs.foldl min_step x

/-- Selection core of `WorkloadAllocator.allocate_workload`
(src/workload_allocator.py, lines 96-112): on a non-empty candidate list it
returns the `min` by energy consumption; on an empty list the source raises
`Exception("No suitable instances found for workload allocation")`, embedded
as `Except.error` with the exception message.  The spec names this operation
`select_best`. -/
def select_best (candidates : List Candidate) : Except String Candidate :=
  match candidates with
  | [] => Except.error "No suitable instances found for workload allocation"
  | c :: cs => Except.ok (py_min c cs)

/-- Embeds `WorkloadAllocator.allocate_workload`
(src/workload_allocator.py, lines 80-119) restricted to its candidate-list
processing: the `try` body either returns the success dictionary for the
minimum-energy candidate or raises on an empty list, and the enclosing
`except` clause catches the exception and returns the sentinel
`{'status': 'error', 'message': str(e)}` dictionary. -/
def allocate_workload (instance_metrics : List Candidate) : AllocationResult :=
  match select_best instance_metrics with
  | Except.ok best => AllocationResult.success best.instance_id best.energy_consumption
  | Except.error msg => AllocationResult.error msg

lemma instanceBasePower_pos (t : String) : 0 < instanceBasePower t := by
  unfold instanceBasePower
  split_ifs <;> norm_num

lemma instanceBasePower_le_eight (t : String) : instanceBasePower t ≤ 8 := by
  unfold instanceBasePower
  split_ifs <;> norm_num

lemma carbonFactor_pos (r : String) : 0 < carbonFactor r := by
  unfold carbonFactor
  split_ifs <;> norm_num

lemma min_step_cases (x y : Candidate) : min_step x y = x ∨ min_step x y = y := by
  unfold min_step
  split_ifs <;> simp

lemma min_step_le_left (x y : Candidate) :
    (min_step x y).energy_consumption ≤ x.energy_consumption := by
  unfold min_step
  split_ifs with h
  · exact le_of_lt h
  · exact le_refl _

lemma min_step_le_right (x y : Candidate) :
    (min_step x y).energy_consumption ≤ y.energy_consumption := by
  unfold min_step
  split_ifs with h
  · exact le_refl _
  · exact not_lt.mp h

lemma py_min_cons (x y : Candidate) (ys : List Candidate) :
    py_min x (y :: ys) = py_min (min_step x y) ys := rfl

lemma py_min_mem : ∀ (xs : List Candidate) (x : Candidate), py_min x xs ∈ x :: xs
  | [], x => by simp [py_min]
  | y :: ys, x => by
      rw [py_min_cons]
      have h := py_min_mem ys (min_step x y)
      rcases List.mem_cons.mp h with h1 | h1
      · rcases min_step_cases x y with h2 | h2 <;> rw [h1, h2] <;> simp
      · exact List.mem_cons_of_mem _ (List.mem_cons_of_mem _ h1)

lemma py_min_le : ∀ (xs : List Candidate) (x z : Candidate), z ∈ x :: xs →
    (py_min x xs).energy_consumption ≤ z.energy_consumption
  | [], x, z, hz => by
      rcases List.mem_cons.mp hz with h | h
      · subst h; simp [py_min]
      · simp at h
  | y :: ys, x, z, hz => by
      rw [py_min_cons]
      have hacc : (py_min (min_step x y) ys).energy_consumption ≤
          (min_step x y).energy_consumption :=
        py_min_le ys (min_step x y) (min_step x y) (List.mem_cons_self _ _)
      rcases List.mem_cons.mp hz with h | h
      · subst h
        exact le_trans hacc (min_step_le_left _ _)
      · rcases List.mem_cons.mp h with h1 | h1
        · subst h1
          exact le_trans hacc (min_step_le_right _ _)
        · exact py_min_le ys (min_step x y) z (List.mem_cons_of_mem _ h1)

lemma py_min_first : ∀ (xs : List Candidate) (x : Candidate),
    (∀ z ∈ xs, x.energy_consumption ≤ z.energy_consumption) → py_min x xs = x
  | [], x, _ => rfl
  | y :: ys, x, h => by
      rw [py_min_cons]
      have hxy : x.energy_consumption ≤ y.energy_consumption :=
        h y (List.mem_cons_self _ _)
      have hstep : min_step x y = x := by
        unfold min_step
        rw [if_neg (not_lt.mpr hxy)]
      rw [hstep]
      exact py_min_first ys x (fun z hz => h z (List.mem_cons_of_mem _ hz))

lemma py_min_append (x : Candidate) (l1 l2 : List Candidate) :
    py_min x (l1 ++ l2) = py_min (py_min x l1) l2 := by
  simp [py_min, List.foldl_append]

/-- C1 counterexample: the claim states
`estimate_carbon(14.0, "us-east-1") = (14.0 / 1_000_000) * 400 = 0.0056`, but
the source computes `(energy_consumption / 1000) * factor`, which at energy 14
and region us-east-1 yields 5.6, not 0.0056. -/
theorem C1_counterexample :
    estimate_carbon_footprint 14 "us-east-1" = 28 / 5 ∧
    ¬ estimate_carbon_footprint 14 "us-east-1" = 14 / 1000000 * 400 := by
  constructor
  · norm_num [estimate_carbon_footprint, carbonFactor]
  · norm_num [estimate_carbon_footprint, carbonFactor]

/-- C1 (amended): for every energy value and region,
`estimate_carbon(energy, region) = (energy / 1000) * factor_g_per_kwh`, where
the factor is 400 for us-east-1, 200 for eu-west-1, 600 for ap-southeast-1 and
500 for any other region; in particular
`estimate_carbon(14.0, "us-east-1") = 5.6`. -/
theorem C1_carbon_formula :
    (∀ (energy : ℚ) (region : String),
      estimate_carbon_footprint energy region = energy / 1000 * carbonFactor region) ∧
    carbonFactor "us-east-1" = 400 ∧
    carbonFactor "eu-west-1" = 200 ∧
    carbonFactor "ap-southeast-1" = 600 ∧
    (∀ region : String, region ≠ "us-east-1" → region ≠ "eu-west-1" →
      region ≠ "ap-southeast-1" → carbonFactor region = 500) ∧
    estimate_carbon_footprint 14 "us-east-1" = 28 / 5 := by
  refine ⟨fun energy region => rfl, rfl, rfl, rfl, ?_, ?_⟩
  · intro region h1 h2 h3
    simp [carbonFactor, h1, h2, h3]
  · norm_num [estimate_carbon_footprint, carbonFactor]

/-- Witness for the fallback clause of `C1_carbon_formula` at the concrete
unknown region "sa-east-1". -/
theorem C1_carbon_formula_witness : carbonFactor "sa-east-1" = 500 :=
  C1_carbon_formula.2.2.2.2.1 "sa-east-1" (by decide) (by decide) (by decide)

/-- C2 counterexample: the claim states that on an empty candidate set the
no-candidates error is propagated to the caller and no sentinel value is
returned, but `allocate_workload` catches its own raised exception and
returns the sentinel `{'status': 'error', 'message': ...}` dictionary. -/
theorem C2_counterexample :
    allocate_workload [] =
      AllocationResult.error "No suitable instances found for workload allocation" := rfl

/-- C2 (amended): on an empty candidate set the selection step raises the
no-candidates error ("No suitable instances found for workload allocation"),
but the enclosing `except` clause of `allocate_workload` catches it
internally and returns the sentinel error dictionary to the caller instead of
propagating the exception; the error is never retried, and on a non-empty
candidate set `allocate_workload` returns the success dictionary. -/
theorem C2_empty_candidates :
    select_best [] = Except.error "No suitable instances found for workload allocation" ∧
    allocate_workload [] =
      AllocationResult.error "No suitable instances found for workload allocation" ∧
    (∀ (c : Candidate) (cs : List Candidate),
      allocate_workload (c :: cs) =
        AllocationResult.success (py_min c cs).instance_id
          (py_min c cs).energy_consumption) :=
  ⟨rfl, rfl, fun _ _ => rfl⟩

/-- C3: for every cpu utilization and instance class,
`estimate_energy(cpu, class) = base + (base * 2.5 - base) * (cpu / 100)` with
the base looked up by exact string match (fallback on a miss); in particular
`estimate_energy(50, "t3.medium")` with base 8 and scale 2.5 equals 14.0. -/
theorem C3_energy_formula :
    (∀ (cpu : ℚ) (t : String),
      estimate_energy_consumption cpu t =
        instanceBasePower t +
          (instanceBasePower t * (5 / 2) - instanceBasePower t) * (cpu / 100)) ∧
    instanceBasePower "t3.medium" = 8 ∧
    estimate_energy_consumption 50 "t3.medium" = 14 := by
  refine ⟨fun cpu t => rfl, rfl, ?_⟩
  have hb : instanceBasePower "t3.medium" = 8 := rfl
  simp only [estimate_energy_consumption, hb]
  norm_num

/-- C4: on a non-empty candidate list `select_best` returns a candidate of
the list with minimum energy consumption, any candidate preceded only by
strictly larger energies and followed only by larger-or-equal energies is the
one returned (ties go to the first-encountered minimum), and
`select_best [("a",10),("b",5),("c",5)]` returns "b". -/
theorem C4_select_best_first_min :
    (∀ (c : Candidate) (cs : List Candidate),
      ∃ best, select_best (c :: cs) = Except.ok best ∧
        best ∈ c :: cs ∧
        ∀ x ∈ c :: cs, best.energy_consumption ≤ x.energy_consumption) ∧
    (∀ (pre suf : List Candidate) (b : Candidate),
      (∀ x ∈ pre, b.energy_consumption < x.energy_consumption) →
      (∀ x ∈ suf, b.energy_consumption ≤ x.energy_consumption) →
      select_best (pre ++ b :: suf) = Except.ok b) ∧
    select_best [⟨"a", 10⟩, ⟨"b", 5⟩, ⟨"c", 5⟩] = Except.ok ⟨"b", 5⟩ := by
  refine ⟨?_, ?_, ?_⟩
  · intro c cs
    exact ⟨py_min c cs, rfl, py_min_mem cs c, fun x hx => py_min_le cs c x hx⟩
  · intro pre suf b hpre hsuf
    cases pre with
    | nil =>
        show Except.ok (py_min b suf) = Except.ok b
        rw [py_min_first suf b hsuf]
    | cons p ps =>
        show Except.ok (py_min p (ps ++ b :: suf)) = Except.ok b
        rw [py_min_append, py_min_cons]
        have hmem : py_min p ps ∈ p :: ps := py_min_mem ps p
        have hlt : b.energy_consumption < (py_min p ps).energy_consumption :=
          hpre (py_min p ps) hmem
        have hstep : min_step (py_min p ps) b = b := by
          unfold min_step
          rw [if_pos hlt]
        rw [hstep, py_min_first suf b hsuf]
  · rfl

/-- Witness for `C4_select_best_first_min` at the concrete decomposition
`[("a",10)] ++ ("b",5) :: [("c",5)]`. -/
theorem C4_witness :
    select_best ([⟨"a", 10⟩] ++ (⟨"b", 5⟩ : Candidate) :: [⟨"c", 5⟩]) =
      Except.ok ⟨"b", 5⟩ :=
  C4_select_best_first_min.2.1 [⟨"a", 10⟩] [⟨"c", 5⟩] ⟨"b", 5⟩
    (by intro x hx; rw [List.mem_singleton] at hx; rw [hx]; norm_num)
    (by intro x hx; rw [List.mem_singleton] at hx; rw [hx])

/-- C5: every instance class outside the power table falls back to base
power 5 (so max power 12.5), and every region outside the carbon table falls
back to factor 500; both lookups are total functions, so an unknown key is
never an error. -/
theorem C5_fallbacks :
    (∀ t : String,
      t ≠ "t2.micro" → t ≠ "t2.small" → t ≠ "t2.medium" →
      t ≠ "t3.micro" → t ≠ "t3.small" → t ≠ "t3.medium" →
      instanceBasePower t = 5 ∧ instanceBasePower t * (5 / 2) = 25 / 2) ∧
    (∀ r : String, r ≠ "us-east-1" → r ≠ "eu-west-1" → r ≠ "ap-southeast-1" →
      carbonFactor r = 500) := by
  constructor
  · intro t h1 h2 h3 h4 h5 h6
    have hb : instanceBasePower t = 5 := by
      simp [instanceBasePower, h1, h2, h3, h4, h5, h6]
    refine ⟨hb, ?_⟩
    rw [hb]
    norm_num
  · intro r h1 h2 h3
    simp [carbonFactor, h1, h2, h3]

/-- Witness for `C5_fallbacks` at the concrete unknown keys "m5.large" and
"sa-east-2". -/
theorem C5_witness :
    (instanceBasePower "m5.large" = 5 ∧ instanceBasePower "m5.large" * (5 / 2) = 25 / 2) ∧
    carbonFactor "sa-east-2" = 500 :=
  ⟨C5_fallbacks.1 "m5.large" (by decide) (by decide) (by decide) (by decide)
      (by decide) (by decide),
   C5_fallbacks.2 "sa-east-2" (by decide) (by decide) (by decide)⟩

/-- C6: for a fixed instance class, `estimate_energy` is monotonically
non-decreasing in cpu utilization, and for utilization in `[0,100]` the
result lies in `[base_power, max_power]` with `max_power = base_power * 2.5`. -/
theorem C6_monotone_bounded :
    (∀ (t : String) (u1 u2 : ℚ), u1 ≤ u2 →
      estimate_energy_consumption u1 t ≤ estimate_energy_consumption u2 t) ∧
    (∀ (t : String) (u : ℚ), 0 ≤ u → u ≤ 100 →
      instanceBasePower t ≤ estimate_energy_consumption u t ∧
      estimate_energy_consumption u t ≤ instanceBasePower t * (5 / 2)) := by
  constructor
  · intro t u1 u2 h
    have hb := instanceBasePower_pos t
    simp only [estimate_energy_consumption]
    nlinarith [mul_nonneg hb.le (sub_nonneg.mpr h)]
  · intro t u h0 h100
    have hb := instanceBasePower_pos t
    constructor
    · simp only [estimate_energy_consumption]
      nlinarith [mul_nonneg hb.le h0]
    · simp only [estimate_energy_consumption]
      nlinarith [mul_nonneg hb.le (sub_nonneg.mpr h100)]

/-- Witness for `C6_monotone_bounded` at utilizations 30 and 60, and at 50,
for instance class "t3.medium". -/
theorem C6_witness :
    (estimate_energy_consumption 30 "t3.medium" ≤
      estimate_energy_consumption 60 "t3.medium") ∧
    instanceBasePower "t3.medium" ≤ estimate_energy_consumption 50 "t3.medium" ∧
    estimate_energy_consumption 50 "t3.medium" ≤ instanceBasePower "t3.medium" * (5 / 2) :=
  ⟨C6_monotone_bounded.1 "t3.medium" 30 60 (by norm_num),
   C6_monotone_bounded.2 "t3.medium" 50 (by norm_num) (by norm_num)⟩

/-- C7: `estimate_carbon` is non-negative on non-negative energy for every
region, and for a fixed region it is linear in the energy argument: doubling
the energy doubles the result. -/
theorem C7_carbon_nonneg_linear :
    (∀ (e : ℚ) (r : String), 0 ≤ e → 0 ≤ estimate_carbon_footprint e r) ∧
    (∀ (e : ℚ) (r : String),
      estimate_carbon_footprint (2 * e) r = 2 * estimate_carbon_footprint e r) := by
  constructor
  · intro e r he
    unfold estimate_carbon_footprint
    exact mul_nonneg (div_nonneg he (by norm_num)) (carbonFactor_pos r).le
  · intro e r
    unfold estimate_carbon_footprint
    ring

/-- Witness for `C7_carbon_nonneg_linear` at energy 14 and region
"us-east-1". -/
theorem C7_witness :
    0 ≤ estimate_carbon_footprint 14 "us-east-1" ∧
    estimate_carbon_footprint (2 * 14) "us-east-1" =
      2 * estimate_carbon_footprint 14 "us-east-1" :=
  ⟨C7_carbon_nonneg_linear.1 14 "us-east-1" (by norm_num),
   C7_carbon_nonneg_linear.2 14 "us-east-1"⟩

/-- C8: `estimate_energy` applies the linear formula to every utilization
without clamping, so a utilization above 100 yields a result strictly above
max power and a negative utilization yields a result strictly below base
power. -/
theorem C8_no_clamping :
    (∀ (t : String) (u : ℚ),
      estimate_energy_consumption u t =
        instanceBasePower t +
          (instanceBasePower t * (5 / 2) - instanceBasePower t) * (u / 100)) ∧
    (∀ (t : String) (u : ℚ), 100 < u →
      instanceBasePower t * (5 / 2) < estimate_energy_consumption u t) ∧
    (∀ (t : String) (u : ℚ), u < 0 →
      estimate_energy_consumption u t < instanceBasePower t) := by
  refine ⟨fun u t => rfl, ?_, ?_⟩
  · intro t u h
    have hb := instanceBasePower_pos t
    simp only [estimate_energy_consumption]
    nlinarith [mul_pos hb (sub_pos.mpr h)]
  · intro t u h
    have hb := instanceBasePower_pos t
    simp only [estimate_energy_consumption]
    nlinarith [mul_pos hb (neg_pos.mpr h)]

/-- Witness for `C8_no_clamping` at utilizations 200 and -50 for instance
class "t3.medium". -/
theorem C8_witness :
    instanceBasePower "t3.medium" * (5 / 2) <
      estimate_energy_consumption 200 "t3.medium" ∧
    estimate_energy_consumption (-50) "t3.medium" < instanceBasePower "t3.medium" :=
  ⟨C8_no_clamping.2.1 "t3.medium" 200 (by norm_num),
   C8_no_clamping.2.2 "t3.medium" (-50) (by norm_num)⟩

/-- C9: the embedded estimators are deterministic pure functions of their
explicit arguments (equal arguments give equal results, with no state), and
the only error condition in the component is the empty-candidate case of
`select_best`: selection fails exactly on the empty list. -/
theorem C9_pure_deterministic :
    (∀ (u1 u2 : ℚ) (t1 t2 : String), u1 = u2 → t1 = t2 →
      estimate_energy_consumption u1 t1 = estimate_energy_consumption u2 t2) ∧
    (∀ (e1 e2 : ℚ) (r1 r2 : String), e1 = e2 → r1 = r2 →
      estimate_carbon_footprint e1 r1 = estimate_carbon_footprint e2 r2) ∧
    (∀ cands : List Candidate,
      (∃ msg, select_best cands = Except.error msg) ↔ cands = []) := by
  refine ⟨?_, ?_, ?_⟩
  · intro u1 u2 t1 t2 hu ht
    rw [hu, ht]
  · intro e1 e2 r1 r2 he hr
    rw [he, hr]
  · intro cands
    cases cands with
    | nil => exact ⟨fun _ => rfl, fun _ => ⟨_, rfl⟩⟩
    | cons c cs =>
        constructor
        · rintro ⟨msg, h⟩
          exact absurd h (by simp [select_best])
        · intro h
          exact absurd h (by simp)

/-- Witness for `C9_pure_deterministic` at concrete arguments and the empty
candidate list. -/
theorem C9_witness :
    estimate_energy_consumption 50 "t3.medium" =
      estimate_energy_consumption 50 "t3.medium" ∧
    estimate_carbon_footprint 14 "us-east-1" =
      estimate_carbon_footprint 14 "us-east-1" ∧
    ∃ msg, select_best [] = Except.error msg :=
  ⟨C9_pure_deterministic.1 50 50 "t3.medium" "t3.medium" rfl rfl,
   C9_pure_deterministic.2.1 14 14 "us-east-1" "us-east-1" rfl rfl,
   (C9_pure_deterministic.2.2 []).mpr rfl⟩

/-- C10: the monitoring-path energy calculation ignores the instance class:
on a non-empty CPUUtilization series it returns
`100 + (200 - 100) * (mean_cpu / 100)`, on an empty series it returns 0
rather than the base power, and for every instance class (all of whose base
powers differ from 100) it disagrees with the collector-path
`estimate_energy` at every utilization in `[0,100]`. -/
theorem C10_monitor_energy_independent :
    (∀ s : List ℚ, s ≠ [] →
      calculate_energy_consumption s =
        100 + (200 - 100) * ((s.sum / (s.length : ℚ)) / 100)) ∧
    calculate_energy_consumption [] = 0 ∧
    (∀ (t : String) (u : ℚ), 0 ≤ u → u ≤ 100 →
      calculate_energy_consumption [u] ≠ estimate_energy_consumption u t) := by
  refine ⟨?_, rfl, ?_⟩
  · intro s hs
    simp [calculate_energy_consumption, hs]
  · intro t u h0 h100
    have hcalc : calculate_energy_consumption [u] = 100 + u := by
      simp [calculate_energy_consumption]
      ring
    have hb0 := instanceBasePower_pos t
    have hb8 := instanceBasePower_le_eight t
    have hest : estimate_energy_consumption u t ≤ 20 := by
      simp only [estimate_energy_consumption]
      nlinarith [mul_nonneg hb0.le h0, mul_nonneg hb0.le (sub_nonneg.mpr h100)]
    rw [hcalc]
    intro heq
    nlinarith [hest]

/-- Witness for `C10_monitor_energy_independent` on the one-sample series
`[50]` against instance class "t3.medium". -/
theorem C10_witness :
    calculate_energy_consumption [50] =
      100 + (200 - 100) * ((List.sum [(50 : ℚ)] / (List.length [(50 : ℚ)] : ℚ)) / 100) ∧
    calculate_energy_consumption [50] ≠ estimate_energy_consumption 50 "t3.medium" :=
  ⟨C10_monitor_energy_independent.1 [50] (by simp),
   C10_monitor_energy_independent.2.2 "t3.medium" 50 (by norm_num) (by norm_num)⟩

end EstimationEngine
